import Mathlib

/-!
Verification development for the `platform_hierarchy_v1` API client.

The client (a single Python module) consists of:
  * an authenticator `get_access_token` backed by a process-wide token cache;
  * a request dispatcher `make_api_call` that resolves a path against a fixed
    base URL, attaches the token, and raises on non-success HTTP status;
  * hierarchy node operations (inserts, gets, archive/unarchive) that build a
    method/uri/payload/params quadruple and hand it to the dispatcher;
  * response-extraction helpers over the service JSON envelope.

The embedding below is a direct translation of that module: network effects
are passed in as explicit response values, the cache is explicit state, and
Python exceptions become `Except` errors.
-/

/-- Fixed base URL of the hierarchy service (module constant). -/
def LOCAL_HIERARCHY_URL : String := "https://platform-hierarchy-service.localhost.net/"

/-- Fixed organisation id (module constant). -/
def ORG_ID : String := "3fa85f64-5717-4562-b3fc-2c963f66afa6"

/-- Fixed hierarchy type (module constant). -/
def HIERARCHY_TYPE : String := "location"

/-!  ## URL joining (model of `urllib.parse.urljoin`)

The client calls `urljoin` with a base of the form `scheme://netloc/path`
and a reference string. We model the standard base-URL-join semantics on the
reference classes that can occur: a reference with its own scheme wins
outright, a network-path reference (`//...`) keeps only the base's scheme, a
path-absolute reference (`/...`) replaces the base's whole path, and a
relative reference is merged onto the base path up to its last slash. -/

/-- Split a character list at the first occurrence of `://`, returning the
scheme part and the remainder, or `none` when no `://` occurs. -/
def takeUntilSchemeSep : List Char → Option (List Char × List Char)
  | [] => none
  | c :: rest =>
    if c = ':' then
      match rest with
      | '/' :: '/' :: tail => some ([], tail)
      | _ =>
        match takeUntilSchemeSep rest with
        | some (pre, post) => some (c :: pre, post)
        | none => none
    else
      match takeUntilSchemeSep rest with
      | some (pre, post) => some (c :: pre, post)
      | none => none

/-- The `scheme://netloc` part of a base URL, as characters. -/
def scheme_authority_chars (cs : List Char) : List Char :=
  match takeUntilSchemeSep cs with
  | none => []
  | some (scheme, rest) =>
    let netloc := rest.takeWhile (fun c => c ≠ '/')
    scheme ++ [':', '/', '/'] ++ netloc

/-- Characters of a URL up to and including its last slash (used for merging
a relative reference). -/
def upToLastSlash (cs : List Char) : List Char :=
  (cs.reverse.dropWhile (fun c => c ≠ '/')).reverse

/-- Model of Python `urllib.parse.urljoin` on the reference classes this
client produces. -/
def urljoin (base url : String) : String :=
  let b := base.toList
  let u := url.toList
  if u = [] then base
  else if (takeUntilSchemeSep u).isSome then url
  else
    match u with
    | '/' :: '/' :: _ =>
      (match takeUntilSchemeSep b with
       | some (scheme, _) => (scheme ++ [':'] ++ u).asString
       | none => url)
    | '/' :: _ => (scheme_authority_chars b ++ u).asString
    | _ => (upToLastSlash b ++ u).asString

/-!  ## Token cache and authenticator -/

/-- One entry of the process-wide cache under the key `"access_token"`:
the stored string and the ttl passed to `cache.set` (`none` models Python
`None`, i.e. cache-forever). -/
structure CacheEntry where
  value : String
  ttl : Option Nat

/-- State of the token cache: the entry under `"access_token"`, if any.
Eviction after ttl expiry is modelled as the entry becoming `none`. -/
structure CacheState where
  entry : Option CacheEntry

/-- `cache.get("access_token")`: the stored string, or `none` on a miss. -/
def cache_get (st : CacheState) : Option String :=
  st.entry.map CacheEntry.value

/-- Whether the cached token is truthy in Python's sense: present and not the
empty string.  `get_access_token` returns the cached value exactly when this
holds. -/
def cacheTruthy (st : CacheState) : Bool :=
  match cache_get st with
  | some token => token != ""
  | none => false

/-- The authentication endpoint's response: HTTP status and the three JSON
fields the client reads (each `none` when absent from the body). -/
structure AuthResponse where
  status_code : Nat
  token_type : Option String
  access_token : Option String
  expires_in : Option Nat

/-- The exception raised by `response.raise_for_status()` on a 4xx/5xx
status of the token endpoint. -/
inductive AuthError where
  | httpError (status : Nat)

/-- Python string interpolation of an `Optional[str]`: `None` renders as the
literal text `"None"`. -/
def strOfOpt : Option String → String
  | none => "None"
  | some s => s

/-- Outcome of one `get_access_token` call: the returned value (or the raised
error), the cache state afterwards, and how many authentication POSTs were
performed (0 or 1). -/
structure AuthOutcome where
  result : Except AuthError (Option String)
  cache : CacheState
  posts : Nat

/-- The cache-miss path of `get_access_token`: POST the client credentials,
raise on 4xx/5xx, otherwise read the three fields with `.get`, compose
`f"{token_type} {access_token}"`, cache it with ttl `expires_in`, return it.
The final `return None` of the source is reached only when the response
neither triggers `raise_for_status` nor satisfies `response.ok`. -/
def authenticate_call (st : CacheState) (resp : AuthResponse) : AuthOutcome :=
  if 400 ≤ resp.status_code ∧ resp.status_code < 600 then
    { result := .error (.httpError resp.status_code), cache := st, posts := 1 }
  else if resp.status_code < 400 then
    { result := .ok (some (strOfOpt resp.token_type ++ " " ++ strOfOpt resp.access_token))
    , cache := { entry := some { value := strOfOpt resp.token_type ++ " " ++ strOfOpt resp.access_token
                               , ttl := resp.expires_in } }
    , posts := 1 }
  else
    { result := .ok none, cache := st, posts := 1 }

/-- `get_access_token()`: return the cached token if it is truthy, otherwise
authenticate. -/
def get_access_token (st : CacheState) (resp : AuthResponse) : AuthOutcome :=
  match cache_get st with
  | some token =>
    if token = "" then authenticate_call st resp
    else { result := .ok (some token), cache := st, posts := 0 }
  | none => authenticate_call st resp

/-!  ## Request dispatcher -/

/-- A JSON value, used for the request payloads the node operations build
(the source serialises them with `json.dumps`; object field order is
preserved). -/
inductive PyJson where
  | null
  | bool (b : Bool)
  | num (n : Int)
  | str (s : String)
  | arr (elems : List PyJson)
  | obj (fields : List (String × PyJson))

/-- The hierarchy service's HTTP response as the dispatcher sees it. -/
structure HttpResponse where
  status_code : Nat
  body : String

/-- An HTTP request issued to the hierarchy service: method, resolved URL,
query parameters, payload, and the Authorization header value (the token
returned by the authenticator). -/
structure HttpRequest where
  method : String
  url : String
  params : List (String × String)
  payload : Option PyJson
  authorization : Option String

/-- Errors escaping `make_api_call`: an authentication failure propagated
from `get_access_token`, or the `HTTPError` raised by `raise_for_status` on a
4xx/5xx hierarchy-service response (carrying status code and body). -/
inductive ApiError where
  | authFailure (e : AuthError)
  | httpError (status : Nat) (body : String)

/-- Outcome of one `make_api_call`: result (raw response or raised error),
cache state afterwards, authentication POSTs performed, and the list of
HTTP requests issued to the hierarchy service, in order. -/
structure DispatchOutcome where
  result : Except ApiError HttpResponse
  cache : CacheState
  posts : Nat
  requests : List HttpRequest

/-- URL resolution performed by `make_api_call`:
`urljoin(LOCAL_HIERARCHY_URL, uri)`. -/
def make_api_call_url (uri : String) : String :=
  urljoin LOCAL_HIERARCHY_URL uri

/-- `make_api_call(method, uri, payload, uri_params)`: obtain a token (whose
failure propagates), resolve the URL, issue exactly one request, and raise on
a 4xx/5xx status, else return the raw response. -/
def make_api_call (method uri : String) (payload : Option PyJson)
    (params : List (String × String)) (st : CacheState) (aresp : AuthResponse)
    (hresp : HttpResponse) : DispatchOutcome :=
  let auth := get_access_token st aresp
  match auth.result with
  | .error e =>
    { result := .error (.authFailure e), cache := auth.cache
    , posts := auth.posts, requests := [] }
  | .ok token =>
    let req : HttpRequest :=
      { method := method, url := make_api_call_url uri
      , params := params, payload := payload, authorization := token }
    if 400 ≤ hresp.status_code ∧ hresp.status_code < 600 then
      { result := .error (.httpError hresp.status_code hresp.body)
      , cache := auth.cache, posts := auth.posts, requests := [req] }
    else
      { result := .ok hresp, cache := auth.cache, posts := auth.posts
      , requests := [req] }

/-!  ## Hierarchy node operations

Each operation builds a method, uri, payload and query parameters and hands
them to the dispatcher; `ApiCall` records that quadruple. -/

/-- The quadruple a node operation passes to `make_api_call`. -/
structure ApiCall where
  method : String
  uri : String
  payload : Option PyJson
  params : List (String × String)

/-- Run a node operation through the dispatcher. -/
def run_api_call (c : ApiCall) (st : CacheState) (aresp : AuthResponse)
    (hresp : HttpResponse) : DispatchOutcome :=
  make_api_call c.method c.uri c.payload c.params st aresp hresp

/-- `insert_root_companyunit_node()`. -/
def insert_root_companyunit_node : ApiCall :=
  { method := "PUT"
  , uri := "/v1/organisation/" ++ ORG_ID ++ "/hierarchy/" ++ HIERARCHY_TYPE
  , payload := some (.obj [ ("shortCode", .str "root"), ("name", .str "Top Company")
                          , ("archived", .bool false), ("nodeType", .str "company") ])
  , params := [] }

/-- `insert_company_unit_division_node()`. -/
def insert_company_unit_division_node : ApiCall :=
  { method := "PUT"
  , uri := "/v1/organisation/" ++ ORG_ID ++ "/hierarchy/" ++ HIERARCHY_TYPE
             ++ "/nodes/" ++ "edinburgh"
  , payload := some (.obj [ ("name", .str "Edinburgh"), ("parentShortCode", .str "root")
                          , ("parentId", .str "40c46fec-206e-426b-8c6c-199925c44441")
                          , ("archived", .bool false), ("nodeType", .str "division") ])
  , params := [] }

/-- `insert_company_unit_site_node()`; the source hardcodes the short code
`"eedinburgh-office"`. -/
def insert_company_unit_site_node : ApiCall :=
  { method := "PUT"
  , uri := "/v1/organisation/" ++ ORG_ID ++ "/hierarchy/" ++ HIERARCHY_TYPE
             ++ "/nodes/" ++ "eedinburgh-office"
  , payload := some (.obj [ ("name", .str "Edinburgh Office"), ("parentShortCode", .str "edinburgh")
                          , ("parentId", .str "caa8aae2-ab54-4f0d-a580-28e1ce49cc60")
                          , ("archived", .bool false), ("nodeType", .str "site") ])
  , params := [] }

/-- `get_root_companyunit_node()`. -/
def get_root_companyunit_node : ApiCall :=
  { method := "GET"
  , uri := "/v1/organisation/" ++ ORG_ID ++ "/hierarchy/" ++ HIERARCHY_TYPE ++ "/nodes"
  , payload := none
  , params := [("$filter", "ShortCode eq \x27root\x27")] }

/-- `get_company_unit_node(nodeId)`. -/
def get_company_unit_node (nodeId : String) : ApiCall :=
  { method := "GET"
  , uri := "/v1/organisation/" ++ ORG_ID ++ "/hierarchy/" ++ HIERARCHY_TYPE
             ++ "/nodes/" ++ nodeId
  , payload := none
  , params := [] }

/-- `get_divisions_company_unit_nodes()`. -/
def get_divisions_company_unit_nodes : ApiCall :=
  { method := "GET"
  , uri := "/v1/organisation/" ++ ORG_ID ++ "/hierarchy/" ++ HIERARCHY_TYPE ++ "/nodes"
  , payload := none
  , params := [("$filter", "NodeType eq \x27division\x27")] }

/-- `get_sites_company_unit_nodes()`. -/
def get_sites_company_unit_nodes : ApiCall :=
  { method := "GET"
  , uri := "/v1/organisation/" ++ ORG_ID ++ "/hierarchy/" ++ HIERARCHY_TYPE ++ "/nodes"
  , payload := none
  , params := [("$filter", "NodeType eq \x27site\x27")] }

/-- `get_company_unit_nodes()` (all non-root nodes). -/
def get_company_unit_nodes : ApiCall :=
  { method := "GET"
  , uri := "/v1/organisation/" ++ ORG_ID ++ "/hierarchy/" ++ HIERARCHY_TYPE ++ "/nodes"
  , payload := none
  , params := [("$filter", "ShortCode ne \x27root\x27")] }

/-- `archive_company_unit_node(nodeId)`. -/
def archive_company_unit_node (nodeId : String) : ApiCall :=
  { method := "PATCH"
  , uri := "/v1/organisation/" ++ ORG_ID ++ "/hierarchy/" ++ HIERARCHY_TYPE
             ++ "/nodes/" ++ nodeId
  , payload := some (.arr [ .obj [ ("value", .bool true), ("path", .str "/Archived")
                                 , ("op", .str "replace") ] ])
  , params := [] }

/-- `unarchive_company_unit_node(nodeId)`. -/
def unarchive_company_unit_node (nodeId : String) : ApiCall :=
  { method := "PATCH"
  , uri := "/v1/organisation/" ++ ORG_ID ++ "/hierarchy/" ++ HIERARCHY_TYPE
             ++ "/nodes/" ++ nodeId
  , payload := some (.arr [ .obj [ ("value", .bool false), ("path", .str "/Archived")
                                 , ("op", .str "replace") ] ])
  , params := [] }

/-- The full operation surface of the Hierarchy Node Client, instantiated at
a node id. -/
def node_operations (nodeId : String) : List ApiCall :=
  [ insert_root_companyunit_node
  , insert_company_unit_division_node
  , insert_company_unit_site_node
  , get_root_companyunit_node
  , get_company_unit_node nodeId
  , get_divisions_company_unit_nodes
  , get_sites_company_unit_nodes
  , get_company_unit_nodes
  , archive_company_unit_node nodeId
  , unarchive_company_unit_node nodeId ]

/-!  ## Response extraction helpers -/

/-- A node record within the service envelope: a JSON object, as an ordered
field list. -/
def NodeRecord : Type := List (String × PyJson)

/-- The service's JSON envelope: `value` is `none` when the key is absent
(as in the empty envelope), otherwise the list under it. -/
structure Envelope where
  value : Option (List NodeRecord)

/-- A Python exception escaping an extraction helper. -/
inductive PyErr where
  | keyError (key : String)
  | indexError

/-- Python dict lookup on a node record. -/
def dictLookup (d : NodeRecord) (k : String) : Option PyJson :=
  (d.find? (fun kv => kv.1 == k)).map (fun kv => kv.2)

/-- `_get_root_value(json_payload)`: `json_payload["value"][0]` with
`KeyError` caught (logged, returns `None`); `IndexError` on an empty list is
not caught and escapes. -/
def _get_root_value (env : Envelope) : Except PyErr (Option NodeRecord) :=
  match env.value with
  | none => .ok none
  | some [] => .error .indexError
  | some (x :: _) => .ok (some x)

/-- `_get_root_id(json_payload)`: `json_payload["value"][0]["Id"]` with
`KeyError` (missing `"value"` or missing `"Id"`) caught, `IndexError` not. -/
def _get_root_id (env : Envelope) : Except PyErr (Option PyJson) :=
  match env.value with
  | none => .ok none
  | some [] => .error .indexError
  | some (x :: _) =>
    match dictLookup x "Id" with
    | none => .ok none
    | some v => .ok (some v)

/-- `_get_all_node_values(json_payload)`: list comprehension over
`json_payload["value"]`; a missing `"value"` key raises `KeyError`. -/
def _get_all_node_values (env : Envelope) : Except PyErr (List NodeRecord) :=
  match env.value with
  | none => .error (.keyError "value")
  | some xs => .ok xs

/-- Modelled from the spec: the short-code naming convention for
division/site nodes, "lower-cased, hyphenated form of the name" — the source
hardcodes its short codes instead of deriving them. -/
def short_code_of_name (name : String) : String :=
  (name.toList.map (fun c => if c = ' ' then '-' else c.toLower)).asString

/-!  ## Shared helper lemmas -/

/-- On a cache miss (absent or empty cached string), `get_access_token`
performs the authentication call. -/
theorem get_access_token_of_miss (st : CacheState) (resp : AuthResponse)
    (h : cacheTruthy st = false) :
    get_access_token st resp = authenticate_call st resp := by
  unfold get_access_token
  unfold cacheTruthy at h
  cases hc : cache_get st with
  | none => simp
  | some t =>
    rw [hc] at h
    simp only [bne_eq_false_iff_eq] at h
    simp [h]

/-- The composed token string always contains the separating space, hence is
never empty. -/
theorem append_space_ne_empty (a b : String) : a ++ " " ++ b ≠ "" := by
  intro h
  have hlen : (a ++ " " ++ b).length = ("" : String).length := congrArg String.length h
  rw [String.length_append, String.length_append] at hlen
  have h1 : (" " : String).length = 1 := rfl
  have h0 : ("" : String).length = 0 := rfl
  omega

/-- On a cache hit with a non-empty stored string, `get_access_token` returns
it unchanged and performs no POST. -/
theorem get_access_token_of_hit (st : CacheState) (resp : AuthResponse) (t : String)
    (hc : cache_get st = some t) (hne : t ≠ "") :
    get_access_token st resp = { result := .ok (some t), cache := st, posts := 0 } := by
  unfold get_access_token
  rw [hc]
  simp [hne]

/-!  ## Claims -/

/-- Claim C1, counterexample: the state in which the cache holds the empty
string is a state with a token present, yet `get_access_token` performs the
authentication POST (posts = 1) and returns the freshly composed token, not
the cached value. -/
theorem C1_counterexample :
    cache_get { entry := some { value := "", ttl := none } } = some ""
    ∧ (get_access_token { entry := some { value := "", ttl := none } }
        { status_code := 200, token_type := some "Bearer", access_token := some "tok"
        , expires_in := some 3600 }).posts = 1
    ∧ (get_access_token { entry := some { value := "", ttl := none } }
        { status_code := 200, token_type := some "Bearer", access_token := some "tok"
        , expires_in := some 3600 }).result = .ok (some "Bearer tok")
    ∧ ("Bearer tok" : String) ≠ "" :=
  ⟨rfl, rfl, rfl, by decide⟩

/-- Claim C1 (amended): for every cache state holding a non-empty token,
`get_access_token` returns that cached value with no authentication POST;
and starting from an empty cache, two sequential calls under a successful
authentication response perform the POST exactly once, the second call
returning the identical cached value with no further POST. -/
theorem C1_cached_token_amended (st st0 : CacheState) (t : String)
    (resp resp0 : AuthResponse) :
    (cache_get st = some t → t ≠ "" →
      get_access_token st resp = { result := .ok (some t), cache := st, posts := 0 })
    ∧ (cache_get st0 = none → resp0.status_code < 400 →
      (get_access_token st0 resp0).posts = 1
      ∧ get_access_token (get_access_token st0 resp0).cache resp0
          = { result := (get_access_token st0 resp0).result
            , cache := (get_access_token st0 resp0).cache
            , posts := 0 }) := by
  constructor
  · intro hc hne
    exact get_access_token_of_hit st resp t hc hne
  · intro hc hok
    have hmiss : cacheTruthy st0 = false := by unfold cacheTruthy; rw [hc]
    rw [get_access_token_of_miss st0 resp0 hmiss]
    have h1 : ¬(400 ≤ resp0.status_code ∧ resp0.status_code < 600) := by omega
    unfold authenticate_call
    rw [if_neg h1, if_pos hok]
    refine ⟨rfl, ?_⟩
    exact get_access_token_of_hit _ resp0 _ rfl (append_space_ne_empty _ _)

/-- Claim C1 (amended), witness at concrete inputs: a cached token
`"Bearer abc"` is returned untouched even when the auth endpoint would fail,
and from an empty cache two calls make one POST, the second returning the
cached composition. -/
theorem C1_cached_token_amended_witness :
    get_access_token { entry := some { value := "Bearer abc", ttl := some 100 } }
        { status_code := 500, token_type := none, access_token := none, expires_in := none }
      = { result := .ok (some "Bearer abc")
        , cache := { entry := some { value := "Bearer abc", ttl := some 100 } }
        , posts := 0 }
    ∧ ((get_access_token { entry := none }
          { status_code := 200, token_type := some "Bearer", access_token := some "xyz"
          , expires_in := some 60 }).posts = 1
       ∧ get_access_token
           (get_access_token { entry := none }
             { status_code := 200, token_type := some "Bearer", access_token := some "xyz"
             , expires_in := some 60 }).cache
           { status_code := 200, token_type := some "Bearer", access_token := some "xyz"
           , expires_in := some 60 }
         = { result := (get_access_token { entry := none }
               { status_code := 200, token_type := some "Bearer", access_token := some "xyz"
               , expires_in := some 60 }).result
           , cache := (get_access_token { entry := none }
               { status_code := 200, token_type := some "Bearer", access_token := some "xyz"
               , expires_in := some 60 }).cache
           , posts := 0 }) :=
  ⟨(C1_cached_token_amended
      { entry := some { value := "Bearer abc", ttl := some 100 } } { entry := none }
      "Bearer abc"
      { status_code := 500, token_type := none, access_token := none, expires_in := none }
      { status_code := 200, token_type := some "Bearer", access_token := some "xyz"
      , expires_in := some 60 }).1 rfl (by decide),
   (C1_cached_token_amended
      { entry := some { value := "Bearer abc", ttl := some 100 } } { entry := none }
      "Bearer abc"
      { status_code := 500, token_type := none, access_token := none, expires_in := none }
      { status_code := 200, token_type := some "Bearer", access_token := some "xyz"
      , expires_in := some 60 }).2 rfl (by decide)⟩

/-- Claim C2, counterexample: on a successful (200) response with all three
required fields absent, `get_access_token` returns the present, non-empty
string `"None None"` (Python interpolation of the missing fields) and caches
it — not an absent/empty result. -/
theorem C2_counterexample :
    (get_access_token { entry := none }
        { status_code := 200, token_type := none, access_token := none
        , expires_in := none }).result = .ok (some "None None")
    ∧ (get_access_token { entry := none }
        { status_code := 200, token_type := none, access_token := none
        , expires_in := none }).cache.entry = some { value := "None None", ttl := none }
    ∧ ("None None" : String) ≠ ""
    ∧ (some "None None" : Option String) ≠ none :=
  ⟨rfl, rfl, by decide, by decide⟩

/-- Claim C2 (amended): on a successful response missing one or more of the
required fields, `get_access_token` does not raise, but instead of an
absent/empty result it returns — and caches, with the response's `expires_in`
as ttl — the composed string with the literal text `None` in place of each
absent field, a present and non-empty value. -/
theorem C2_missing_fields_amended (st : CacheState) (resp : AuthResponse)
    (hmiss : cacheTruthy st = false) (hok : resp.status_code < 400)
    (_habsent : resp.token_type = none ∨ resp.access_token = none
               ∨ resp.expires_in = none) :
    (get_access_token st resp).result
      = .ok (some (strOfOpt resp.token_type ++ " " ++ strOfOpt resp.access_token))
    ∧ strOfOpt resp.token_type ++ " " ++ strOfOpt resp.access_token ≠ ""
    ∧ (get_access_token st resp).cache.entry
      = some { value := strOfOpt resp.token_type ++ " " ++ strOfOpt resp.access_token
             , ttl := resp.expires_in } := by
  rw [get_access_token_of_miss st resp hmiss]
  have h1 : ¬(400 ≤ resp.status_code ∧ resp.status_code < 600) := by omega
  unfold authenticate_call
  rw [if_neg h1, if_pos hok]
  exact ⟨rfl, append_space_ne_empty _ _, rfl⟩

/-- Claim C2 (amended), witness: fully absent fields on a 200 response yield
the cached, returned string `"None None"`. -/
theorem C2_missing_fields_amended_witness :
    (get_access_token { entry := none }
        { status_code := 200, token_type := none, access_token := none
        , expires_in := none }).result = .ok (some "None None")
    ∧ ("None None" : String) ≠ ""
    ∧ (get_access_token { entry := none }
        { status_code := 200, token_type := none, access_token := none
        , expires_in := none }).cache.entry
      = some { value := "None None", ttl := none } :=
  C2_missing_fields_amended { entry := none }
    { status_code := 200, token_type := none, access_token := none, expires_in := none }
    rfl (by decide) (Or.inl rfl)

/-- Claim C3 (confirmed): on a cache miss and a successful authentication
response carrying `token_type = T`, `access_token = A`, `expires_in = E`,
`get_access_token` returns `"T A"` and stores exactly that string in the
cache with ttl `E`. -/
theorem C3_success_formats_and_caches (st : CacheState) (resp : AuthResponse)
    (T A : String) (E : Nat)
    (hmiss : cacheTruthy st = false) (hok : resp.status_code < 400)
    (hT : resp.token_type = some T) (hA : resp.access_token = some A)
    (hE : resp.expires_in = some E) :
    get_access_token st resp
      = { result := .ok (some (T ++ " " ++ A))
        , cache := { entry := some { value := T ++ " " ++ A, ttl := some E } }
        , posts := 1 } := by
  rw [get_access_token_of_miss st resp hmiss]
  have h1 : ¬(400 ≤ resp.status_code ∧ resp.status_code < 600) := by omega
  unfold authenticate_call
  rw [if_neg h1, if_pos hok, hT, hA, hE]
  simp [strOfOpt]

/-- Claim C3 (confirmed), witness: a 200 response with `Bearer`/`abc123`/
`3600` yields `"Bearer abc123"` cached with ttl 3600. -/
theorem C3_success_formats_and_caches_witness :
    get_access_token { entry := none }
        { status_code := 200, token_type := some "Bearer"
        , access_token := some "abc123", expires_in := some 3600 }
      = { result := .ok (some "Bearer abc123")
        , cache := { entry := some { value := "Bearer abc123", ttl := some 3600 } }
        , posts := 1 } :=
  C3_success_formats_and_caches { entry := none }
    { status_code := 200, token_type := some "Bearer", access_token := some "abc123"
    , expires_in := some 3600 }
    "Bearer" "abc123" 3600 rfl (by decide) rfl rfl rfl

/-- Claim C4 (confirmed): for every Hierarchy Node Client operation, when
token acquisition succeeds, a 4xx/5xx hierarchy-service status makes the
dispatcher raise `HttpError` carrying that status code (and body) after
issuing exactly one request (no retry), and a successful status returns the
raw response, again from exactly one request. -/
theorem C4_dispatcher_propagation (nodeId : String) (op : ApiCall)
    (_hop : op ∈ node_operations nodeId)
    (st : CacheState) (aresp : AuthResponse) (hresp : HttpResponse)
    (tok : Option String)
    (hauth : (get_access_token st aresp).result = .ok tok) :
    (400 ≤ hresp.status_code → hresp.status_code < 600 →
      (run_api_call op st aresp hresp).result
          = .error (.httpError hresp.status_code hresp.body)
      ∧ (run_api_call op st aresp hresp).requests.length = 1)
    ∧ (hresp.status_code < 400 →
      (run_api_call op st aresp hresp).result = .ok hresp
      ∧ (run_api_call op st aresp hresp).requests.length = 1) := by
  simp only [run_api_call, make_api_call, hauth]
  constructor
  · intro h4 h6
    rw [if_pos ⟨h4, h6⟩]
    exact ⟨rfl, rfl⟩
  · intro hlt
    rw [if_neg (by omega : ¬(400 ≤ hresp.status_code ∧ hresp.status_code < 600))]
    exact ⟨rfl, rfl⟩

/-- Claim C4 (confirmed), witness: a 401 from the service on the root-insert
operation surfaces as `HttpError 401` with exactly one request issued. -/
theorem C4_dispatcher_propagation_witness :
    (run_api_call insert_root_companyunit_node { entry := none }
        { status_code := 200, token_type := some "Bearer", access_token := some "t"
        , expires_in := some 60 }
        { status_code := 401, body := "unauthorized" }).result
      = .error (.httpError 401 "unauthorized")
    ∧ (run_api_call insert_root_companyunit_node { entry := none }
        { status_code := 200, token_type := some "Bearer", access_token := some "t"
        , expires_in := some 60 }
        { status_code := 401, body := "unauthorized" }).requests.length = 1 :=
  (C4_dispatcher_propagation "n" insert_root_companyunit_node
    (List.mem_cons_self _ _) { entry := none }
    { status_code := 200, token_type := some "Bearer", access_token := some "t"
    , expires_in := some 60 }
    { status_code := 401, body := "unauthorized" } (some "Bearer t") rfl).1
    (by decide) (by decide)

/-- Claim C5 (confirmed): on the empty envelope, `_get_all_node_values`
raises `KeyError "value"` while `_get_root_value` returns an absent value
without raising. -/
theorem C5_extraction_asymmetry :
    _get_all_node_values { value := none } = .error (.keyError "value")
    ∧ _get_root_value { value := none } = .ok none :=
  ⟨rfl, rfl⟩

/-- Claim C6 (code bug): the site-insert operation's request path uses the
hardcoded short code `"eedinburgh-office"`, while the convention the spec
states (lower-cased, hyphenated name) gives `"edinburgh-office"` for the
node's name `"Edinburgh Office"`; the two disagree. -/
theorem C6_site_short_code_typo :
    insert_company_unit_site_node.uri
      = "/v1/organisation/3fa85f64-5717-4562-b3fc-2c963f66afa6/hierarchy/location/nodes/eedinburgh-office"
    ∧ short_code_of_name "Edinburgh Office" = "edinburgh-office"
    ∧ insert_company_unit_site_node.uri
      ≠ "/v1/organisation/3fa85f64-5717-4562-b3fc-2c963f66afa6/hierarchy/location/nodes/"
          ++ short_code_of_name "Edinburgh Office" :=
  ⟨rfl, by decide, by decide⟩

/-- Claim C7, counterexample: the `$filter` value sent by
`get_divisions_company_unit_nodes` is `NodeType eq 'division'`, whose field
name differs from the claimed `nodeType eq 'division'`. -/
theorem C7_counterexample :
    get_divisions_company_unit_nodes.params
      = [("$filter", "NodeType eq \x27division\x27")]
    ∧ ("NodeType eq \x27division\x27" : String) ≠ "nodeType eq \x27division\x27" :=
  ⟨rfl, by decide⟩

/-- Claim C7 (amended): `get_divisions_company_unit_nodes` issues a GET to
the node-collection endpoint with query parameter `$filter` whose value is
the equality predicate `NodeType eq 'division'` — the field name capitalised
as in the service's field naming, not lower-case `nodeType`. -/
theorem C7_divisions_filter_amended :
    get_divisions_company_unit_nodes.method = "GET"
    ∧ get_divisions_company_unit_nodes.uri
      = "/v1/organisation/3fa85f64-5717-4562-b3fc-2c963f66afa6/hierarchy/location/nodes"
    ∧ get_divisions_company_unit_nodes.params
      = [("$filter", "NodeType eq \x27division\x27")] :=
  ⟨rfl, rfl, rfl⟩

/-- Claim C8 (confirmed): the dispatcher's URL resolution is standard
base-URL joining — at the spec's concrete example it yields
`https://host/v1/organisation/X/hierarchy/location/nodes`; against the
client's actual base it prefixes the service host; and whenever token
acquisition succeeds, the single request `make_api_call` issues carries
exactly the joined URL. -/
theorem C8_url_resolution :
    urljoin "https://host/" "/v1/organisation/X/hierarchy/location/nodes"
      = "https://host/v1/organisation/X/hierarchy/location/nodes"
    ∧ make_api_call_url "/v1/organisation/X/hierarchy/location/nodes"
      = "https://platform-hierarchy-service.localhost.net/v1/organisation/X/hierarchy/location/nodes"
    ∧ ∀ (method uri : String) (payload : Option PyJson)
        (params : List (String × String)) (st : CacheState) (aresp : AuthResponse)
        (hresp : HttpResponse) (tok : Option String),
        (get_access_token st aresp).result = .ok tok →
        (make_api_call method uri payload params st aresp hresp).requests.map
            HttpRequest.url
          = [make_api_call_url uri] := by
  refine ⟨by decide, by decide, ?_⟩
  intro method uri payload params st aresp hresp tok hauth
  simp only [make_api_call, hauth]
  by_cases hc : 400 ≤ hresp.status_code ∧ hresp.status_code < 600
  · rw [if_pos hc]
    rfl
  · rw [if_neg hc]
    rfl

/-- Claim C8 (confirmed), witness: with a cached token, the one request
issued for the example path carries the joined URL. -/
theorem C8_url_resolution_witness :
    (make_api_call "GET" "/v1/organisation/X/hierarchy/location/nodes" none []
        { entry := some { value := "Bearer abc", ttl := some 60 } }
        { status_code := 200, token_type := none, access_token := none
        , expires_in := none }
        { status_code := 200, body := "" }).requests.map HttpRequest.url
      = [make_api_call_url "/v1/organisation/X/hierarchy/location/nodes"] :=
  C8_url_resolution.2.2 "GET" "/v1/organisation/X/hierarchy/location/nodes" none []
    { entry := some { value := "Bearer abc", ttl := some 60 } }
    { status_code := 200, token_type := none, access_token := none, expires_in := none }
    { status_code := 200, body := "" } (some "Bearer abc") rfl

/-- Claim C9 (confirmed): on a non-success (4xx/5xx) authentication
response, `get_access_token` leaves the token cache exactly as it was, and —
whenever the call actually reaches the network (cache miss) — raises the
status error, so the cache is mutated only on the success path. -/
theorem C9_auth_failure_cache_unchanged (st : CacheState) (resp : AuthResponse)
    (h4 : 400 ≤ resp.status_code) (h6 : resp.status_code < 600) :
    (get_access_token st resp).cache = st
    ∧ (cacheTruthy st = false →
        (get_access_token st resp).result = .error (.httpError resp.status_code)) := by
  by_cases hct : cacheTruthy st = false
  · rw [get_access_token_of_miss st resp hct]
    unfold authenticate_call
    rw [if_pos ⟨h4, h6⟩]
    exact ⟨rfl, fun _ => rfl⟩
  · have htrue : cacheTruthy st = true := by
      cases h : cacheTruthy st
      · exact absurd h hct
      · rfl
    have hx : ∃ t, cache_get st = some t ∧ t ≠ "" := by
      unfold cacheTruthy at htrue
      cases hc : cache_get st with
      | none => rw [hc] at htrue; simp at htrue
      | some t =>
        rw [hc] at htrue
        simp only [bne_iff_ne] at htrue
        exact ⟨t, rfl, htrue⟩
    obtain ⟨t, hc, hne⟩ := hx
    rw [get_access_token_of_hit st resp t hc hne]
    refine ⟨rfl, fun hmiss => ?_⟩
    rw [htrue] at hmiss
    exact Bool.noConfusion hmiss

/-- Claim C9 (confirmed), witness: a 401 from the token endpoint on an empty
cache raises and leaves the cache empty. -/
theorem C9_auth_failure_cache_unchanged_witness :
    (get_access_token { entry := none }
        { status_code := 401, token_type := none, access_token := none
        , expires_in := none }).cache = { entry := none }
    ∧ (get_access_token { entry := none }
        { status_code := 401, token_type := none, access_token := none
        , expires_in := none }).result = .error (.httpError 401) :=
  ⟨(C9_auth_failure_cache_unchanged { entry := none }
      { status_code := 401, token_type := none, access_token := none
      , expires_in := none } (by decide) (by decide)).1,
   (C9_auth_failure_cache_unchanged { entry := none }
      { status_code := 401, token_type := none, access_token := none
      , expires_in := none } (by decide) (by decide)).2 rfl⟩

/-- Claim C10 (confirmed): the absent-on-missing behaviour of
`_get_root_value` covers exactly a missing `value` key; on any envelope
whose `value` is present but an empty list, both `_get_root_value` and
`_get_root_id` raise an uncaught index error instead of returning an absent
value. -/
theorem C10_empty_value_list_raises (env other : Envelope)
    (h : env.value = some []) :
    (_get_root_value env = .error .indexError
     ∧ _get_root_id env = .error .indexError)
    ∧ (_get_root_value other = .ok none ↔ other.value = none) := by
  refine ⟨⟨?_, ?_⟩, ?_⟩
  · unfold _get_root_value
    rw [h]
  · unfold _get_root_id
    rw [h]
  · constructor
    · intro hv
      unfold _get_root_value at hv
      cases ho : other.value with
      | none => rfl
      | some xs =>
        rw [ho] at hv
        cases xs with
        | nil => exact Except.noConfusion hv
        | cons x rest =>
          have hinj := Except.ok.inj hv
          exact Option.noConfusion hinj
    · intro hv
      unfold _get_root_value
      rw [hv]

/-- Claim C10 (confirmed), witness: the envelope whose `value` is the empty
list makes both helpers raise the index error. -/
theorem C10_empty_value_list_raises_witness :
    _get_root_value { value := some [] } = .error .indexError
    ∧ _get_root_id { value := some [] } = .error .indexError :=
  (C10_empty_value_list_raises { value := some [] } { value := none } rfl).1
